import Mathlib

/-!
Verification of the qSOFA screening and trend-alert derivation engine of the
Sepsis1 server (src/server.js). The scorer `calculateQSOFA` (lines 12-34) and
the trend loop of the patient-summary handler (lines 179-236) are embedded as
pure Lean functions; JavaScript numbers are modelled as rationals, strings as
`String`, and a possibly-absent (null/undefined) mental-status field as
`Option String`. The trend loop calls `.toLowerCase()` on the mental-status
fields without a guard, so its embedding returns `Except String (List Alert)`,
an `error` standing for the thrown TypeError.
-/

namespace Sepsis

/-- Input of `calculateQSOFA`: one vital-sign observation. `mentalStatus` is
`none` when the field is null/undefined in JavaScript. -/
structure Observation where
  respiratoryRate : ℚ
  systolicBP : ℚ
  mentalStatus : Option String
  deriving DecidableEq, Repr

/-- Output of `calculateQSOFA` (src/server.js line 33). -/
structure ScoreResult where
  score : ℕ
  riskLabel : String
  reasons : List String
  deriving DecidableEq, Repr

/-- JavaScript `String.prototype.toLowerCase`, modelled character-wise (the
inputs of interest are ASCII, where `Char.toLower` agrees with JavaScript). -/
def toLowerCase (s : String) : String := ⟨s.data.map Char.toLower⟩

/-- The JavaScript guard `mentalStatus && mentalStatus.toLowerCase() !== 'alert'`
(src/server.js line 24): a null/undefined or empty string is falsy, so only a
non-empty string that is not case-insensitively "alert" passes. -/
def mentalAltered : Option String → Bool
  | none => false
  | some s => s != "" && toLowerCase s != "alert"

/-- Embedding of `calculateQSOFA` (src/server.js lines 12-34): three
independent criteria each add one point and push a reason, then the risk
label is assigned by two sequential overwrites of the "Low" default. -/
def calculateQSOFA (o : Observation) : ScoreResult :=
  let step1 : ℕ × List String :=
    if 22 ≤ o.respiratoryRate then
      (1, ["Respiratory rate at or above 22 breaths/min"])
    else (0, [])
  let step2 : ℕ × List String :=
    if o.systolicBP ≤ 100 then
      (step1.1 + 1, step1.2 ++ ["Systolic blood pressure at or below 100 mmHg"])
    else step1
  let step3 : ℕ × List String :=
    if mentalAltered o.mentalStatus then
      (step2.1 + 1, step2.2 ++ ["Altered mental status (not fully alert)"])
    else step2
  let riskLabel0 := "Low screening score"
  let riskLabel1 := if step3.1 = 1 then "Intermediate screening score" else riskLabel0
  let riskLabel2 := if 2 ≤ step3.1 then "High screening score" else riskLabel1
  { score := step3.1, riskLabel := riskLabel2, reasons := step3.2 }

/-- One stored reading as fetched from the database by the summary handler
(fields of `readingSchema`, src/server.js lines 46-58, minus the patient ref).
`mentalStatus` is `Option String` so that a document whose field is absent can
be represented; `qsofaScore` is whatever number was stored. -/
structure ScoredReading where
  timestamp : ℤ
  respiratoryRate : ℚ
  systolicBP : ℚ
  mentalStatus : Option String
  qsofaScore : ℚ
  qsofaRiskLabel : String
  qsofaReasons : List String
  deriving DecidableEq, Repr

/-- One derived alert object as pushed by the trend loop
(src/server.js lines 186-234). -/
structure Alert where
  type : String
  level : String
  timestamp : ℤ
  explanation : String
  deriving DecidableEq, Repr

instance {ε α : Type} [DecidableEq ε] [DecidableEq α] : DecidableEq (Except ε α) := fun a b =>
  match a, b with
  | .error e, .error f => if h : e = f then .isTrue (by rw [h]) else .isFalse (by simp [h])
  | .error _, .ok _ => .isFalse (by simp)
  | .ok _, .error _ => .isFalse (by simp)
  | .ok a, .ok b => if h : a = b then .isTrue (by rw [h]) else .isFalse (by simp [h])

/-- Rule 1 of the trend loop (src/server.js lines 185-192): "Risk escalating"
fires when the current score strictly exceeds the previous one. -/
def riskEscalatingAlerts (prev curr : ScoredReading) : List Alert :=
  if prev.qsofaScore < curr.qsofaScore then
    [{ type := "Risk escalating", level := "warning", timestamp := curr.timestamp,
       explanation := "qSOFA screening score increased from " ++ toString prev.qsofaScore
         ++ " to " ++ toString curr.qsofaScore ++ " between readings." }]
  else []

/-- Rule 2 of the trend loop (src/server.js lines 195-203): "High risk
screening score" fires whenever the current score is at least 2. -/
def highRiskAlerts (curr : ScoredReading) : List Alert :=
  if 2 ≤ curr.qsofaScore then
    [{ type := "High risk screening score", level := "high", timestamp := curr.timestamp,
       explanation := "qSOFA screening score is at or above 2 based on respiratory rate, blood pressure, and mental status criteria." }]
  else []

/-- Rule 3 of the trend loop (src/server.js lines 206-214): respiratory-rate
upward edge crossing. -/
def rrCrossedAlerts (prev curr : ScoredReading) : List Alert :=
  if 22 ≤ curr.respiratoryRate ∧ prev.respiratoryRate < 22 then
    [{ type := "Respiratory rate threshold crossed", level := "warning", timestamp := curr.timestamp,
       explanation := "Respiratory rate increased above the screening threshold of 22 breaths/min compared to the prior reading." }]
  else []

/-- Rule 4 of the trend loop (src/server.js lines 215-223): systolic-BP
downward edge crossing. -/
def bpCrossedAlerts (prev curr : ScoredReading) : List Alert :=
  if curr.systolicBP ≤ 100 ∧ 100 < prev.systolicBP then
    [{ type := "Blood pressure threshold crossed", level := "warning", timestamp := curr.timestamp,
       explanation := "Systolic blood pressure dropped to or below the screening threshold of 100 mmHg compared to the prior reading." }]
  else []

/-- Rule 5 of the trend loop (src/server.js lines 224-235). The code evaluates
`prev.mentalStatus.toLowerCase()` and, only if that compares equal to "alert",
`curr.mentalStatus.toLowerCase()` (the `&&` short-circuits); each call throws a
TypeError when the field is null/undefined, modelled as `Except.error`. -/
def mentalStatusAlerts (prev curr : ScoredReading) : Except String (List Alert) :=
  match prev.mentalStatus with
  | none => .error "TypeError: cannot read toLowerCase of a missing mentalStatus"
  | some p =>
    if toLowerCase p = "alert" then
      match curr.mentalStatus with
      | none => .error "TypeError: cannot read toLowerCase of a missing mentalStatus"
      | some c =>
        if toLowerCase c ≠ "alert" then
          .ok [{ type := "Change in mental status", level := "high", timestamp := curr.timestamp,
                 explanation := "Mental status changed from fully alert to an altered state between readings based on recorded input." }]
        else .ok []
    else .ok []

/-- All alerts pushed by one iteration of the trend loop for the adjacent pair
(prev, curr), in the fixed order rules 1-5 are written in the source. If the
mental-status rule throws, the whole loop body throws and every alert pushed
for the request is discarded, so the pair yields an error. -/
def pairAlerts (prev curr : ScoredReading) : Except String (List Alert) := do
  let m ← mentalStatusAlerts prev curr
  pure (riskEscalatingAlerts prev curr ++ highRiskAlerts curr
        ++ rrCrossedAlerts prev curr ++ bpCrossedAlerts prev curr ++ m)

/-- Helper for `deriveAlerts`: processes the pairs (prev, rest[0]),
(rest[0], rest[1]), ... in order, concatenating their alerts. -/
def derivePairs : ScoredReading → List ScoredReading → Except String (List Alert)
  | _, [] => .ok []
  | prev, curr :: rest => do
      let a ← pairAlerts prev curr
      let b ← derivePairs curr rest
      pure (a ++ b)

/-- Embedding of the trend loop of the summary handler (src/server.js lines
179-236): `for (let i = 1; i < readings.length; i++)` pushing the alerts of
each adjacent pair into one list. -/
def deriveAlerts : List ScoredReading → Except String (List Alert)
  | [] => .ok []
  | r :: rest => derivePairs r rest

/-! Concrete inputs used by the example parts of the claims. The trend loop
reads only `timestamp`, `respiratoryRate`, `systolicBP`, `mentalStatus` and
`qsofaScore` of a stored reading, so `mkReading` leaves the remaining two
stored fields empty. -/

/-- Builds a stored reading from the five fields the trend loop inspects. -/
def mkReading (ts : ℤ) (rr sbp : ℚ) (ms : Option String) (sc : ℚ) : ScoredReading :=
  { timestamp := ts, respiratoryRate := rr, systolicBP := sbp, mentalStatus := ms,
    qsofaScore := sc, qsofaRiskLabel := "", qsofaReasons := [] }

/-- The "High risk screening score" alert the loop pushes at a timestamp. -/
def highRiskAlertAt (ts : ℤ) : Alert :=
  { type := "High risk screening score", level := "high", timestamp := ts,
    explanation := "qSOFA screening score is at or above 2 based on respiratory rate, blood pressure, and mental status criteria." }

/-- The "Respiratory rate threshold crossed" alert at a timestamp. -/
def rrCrossedAlertAt (ts : ℤ) : Alert :=
  { type := "Respiratory rate threshold crossed", level := "warning", timestamp := ts,
    explanation := "Respiratory rate increased above the screening threshold of 22 breaths/min compared to the prior reading." }

/-- The "Blood pressure threshold crossed" alert at a timestamp. -/
def bpCrossedAlertAt (ts : ℤ) : Alert :=
  { type := "Blood pressure threshold crossed", level := "warning", timestamp := ts,
    explanation := "Systolic blood pressure dropped to or below the screening threshold of 100 mmHg compared to the prior reading." }

/-- The "Change in mental status" alert at a timestamp. -/
def mentalChangeAlertAt (ts : ℤ) : Alert :=
  { type := "Change in mental status", level := "high", timestamp := ts,
    explanation := "Mental status changed from fully alert to an altered state between readings based on recorded input." }

/-- A pair whose second reading deteriorates on every criterion at once:
score 0 to 3, respiratory rate 18 to 25, systolic BP 115 to 90, mental status
"Alert" to "Drowsy". The stored scores are the ones `calculateQSOFA`
computes for those vitals. -/
def fiveAlertPrev : ScoredReading := mkReading 0 18 115 (some "Alert") 0

/-- Second element of the all-criteria-deteriorating pair. -/
def fiveAlertCurr : ScoredReading := mkReading 1 25 90 (some "Drowsy") 3

/-- The five alerts the trend loop pushes for that single pair. -/
def fiveAlertList : List Alert :=
  [{ type := "Risk escalating", level := "warning", timestamp := 1,
     explanation := "qSOFA screening score increased from 0 to 3 between readings." },
   highRiskAlertAt 1, rrCrossedAlertAt 1, bpCrossedAlertAt 1, mentalChangeAlertAt 1]

/-- Three readings with unchanged vitals and stored scores [2,2,2]. -/
def tripleHighReadings : List ScoredReading :=
  [mkReading 0 25 90 (some "Alert") 2, mkReading 1 25 90 (some "Alert") 2,
   mkReading 2 25 90 (some "Alert") 2]

/-- Three readings with constant vitals whose stored scores are [0,1,2]. -/
def escalatingReadings : List ScoredReading :=
  [mkReading 0 18 115 (some "Alert") 0, mkReading 1 18 115 (some "Alert") 1,
   mkReading 2 18 115 (some "Alert") 2]

/-- Alerts of the first adjacent pair of `escalatingReadings`. -/
def escalatingPair1Alerts : List Alert :=
  [{ type := "Risk escalating", level := "warning", timestamp := 1,
     explanation := "qSOFA screening score increased from 0 to 1 between readings." }]

/-- Alerts of the second adjacent pair of `escalatingReadings`. -/
def escalatingPair2Alerts : List Alert :=
  [{ type := "Risk escalating", level := "warning", timestamp := 2,
     explanation := "qSOFA screening score increased from 1 to 2 between readings." },
   highRiskAlertAt 2]

/-- Three readings whose respiratory rate stays at 25 throughout. -/
def elevatedRRReadings : List ScoredReading :=
  [mkReading 0 25 115 (some "Alert") 1, mkReading 1 25 115 (some "Alert") 1,
   mkReading 2 25 115 (some "Alert") 1]

/-- Three readings whose mental status runs "Alert", "Confused", "Alert" with
constant vitals; stored scores are the ones `calculateQSOFA` computes. -/
def mentalSeqReadings : List ScoredReading :=
  [mkReading 0 18 115 (some "Alert") 0, mkReading 1 18 115 (some "Confused") 1,
   mkReading 2 18 115 (some "Alert") 0]

/-- Alerts of the first adjacent pair of `mentalSeqReadings`. -/
def mentalSeqPairList : List Alert :=
  [{ type := "Risk escalating", level := "warning", timestamp := 1,
     explanation := "qSOFA screening score increased from 0 to 1 between readings." },
   mentalChangeAlertAt 1]

/-- Two readings the first of which has no mental-status value at all. -/
def missingMentalReadings : List ScoredReading :=
  [mkReading 0 18 95 none 1, mkReading 1 18 95 (some "Alert") 1]

/-- The observation of the first reading of `missingMentalReadings`. -/
def missingMentalObs : Observation := { respiratoryRate := 18, systolicBP := 95, mentalStatus := none }

/-- Two readings both of which carry a mental-status string. -/
def presentMentalReadings : List ScoredReading :=
  [mkReading 0 18 115 (some "Alert") 0, mkReading 1 18 115 (some "Alert") 0]

/-! Shared lemmas about the embedded functions. -/

lemma ok_bind {ε α β : Type} (a : α) (f : α → Except ε β) :
    (Except.ok a : Except ε α) >>= f = f a := rfl

lemma pure_eq_ok {ε α : Type} (a : α) : (pure a : Except ε α) = Except.ok a := rfl

lemma score_decomp (o : Observation) :
    (calculateQSOFA o).score
      = (if 22 ≤ o.respiratoryRate then 1 else 0)
        + (if o.systolicBP ≤ 100 then 1 else 0)
        + (if mentalAltered o.mentalStatus then 1 else 0) := by
  simp only [calculateQSOFA]
  split_ifs <;> simp

lemma mentalAltered_some_iff (s : String) :
    mentalAltered (some s) = true ↔ (s ≠ "" ∧ toLowerCase s ≠ "alert") := by
  simp [mentalAltered]

lemma pairAlerts_ok_elim {prev curr : ScoredReading} {l : List Alert}
    (h : pairAlerts prev curr = Except.ok l) :
    ∃ m, mentalStatusAlerts prev curr = Except.ok m ∧
      l = riskEscalatingAlerts prev curr ++ highRiskAlerts curr
          ++ rrCrossedAlerts prev curr ++ bpCrossedAlerts prev curr ++ m := by
  cases hms : mentalStatusAlerts prev curr with
  | error e => simp [pairAlerts, hms] at h
  | ok m =>
    refine ⟨m, rfl, ?_⟩
    simp [pairAlerts, hms] at h
    simpa [List.append_assoc] using h.symm

lemma pairAlerts_ok_intro {prev curr : ScoredReading} {m : List Alert}
    (hm : mentalStatusAlerts prev curr = Except.ok m) :
    pairAlerts prev curr = Except.ok (riskEscalatingAlerts prev curr ++ highRiskAlerts curr
      ++ rrCrossedAlerts prev curr ++ bpCrossedAlerts prev curr ++ m) := by
  simp only [pairAlerts, hm, ok_bind, pure_eq_ok]

lemma mental_ok_cases {prev curr : ScoredReading} {m : List Alert}
    (h : mentalStatusAlerts prev curr = Except.ok m) :
    m = [] ∨ m = [mentalChangeAlertAt curr.timestamp] := by
  unfold mentalStatusAlerts at h
  split at h
  · exact absurd h (by simp)
  · split at h
    · split at h
      · exact absurd h (by simp)
      · split at h
        · right; injection h with h2; exact h2.symm
        · left; injection h with h2; exact h2.symm
    · left; injection h with h2; exact h2.symm

lemma countP_riskEscalating_ne (prev curr : ScoredReading) (T : String)
    (hT : ("Risk escalating" == T) = false) :
    (riskEscalatingAlerts prev curr).countP (fun a => a.type == T) = 0 := by
  unfold riskEscalatingAlerts
  split <;> simp [List.countP_cons, hT]

lemma countP_high_ne (curr : ScoredReading) (T : String)
    (hT : ("High risk screening score" == T) = false) :
    (highRiskAlerts curr).countP (fun a => a.type == T) = 0 := by
  unfold highRiskAlerts
  split <;> simp [List.countP_cons, hT]

lemma countP_rr_ne (prev curr : ScoredReading) (T : String)
    (hT : ("Respiratory rate threshold crossed" == T) = false) :
    (rrCrossedAlerts prev curr).countP (fun a => a.type == T) = 0 := by
  unfold rrCrossedAlerts
  split <;> simp [List.countP_cons, hT]

lemma countP_bp_ne (prev curr : ScoredReading) (T : String)
    (hT : ("Blood pressure threshold crossed" == T) = false) :
    (bpCrossedAlerts prev curr).countP (fun a => a.type == T) = 0 := by
  unfold bpCrossedAlerts
  split <;> simp [List.countP_cons, hT]

lemma countP_mental_ne {prev curr : ScoredReading} {m : List Alert}
    (h : mentalStatusAlerts prev curr = Except.ok m) (T : String)
    (hT : ("Change in mental status" == T) = false) :
    m.countP (fun a => a.type == T) = 0 := by
  rcases mental_ok_cases h with h2 | h2 <;> subst h2 <;>
    simp [List.countP_cons, mentalChangeAlertAt, hT]

lemma countP_high (curr : ScoredReading) :
    (highRiskAlerts curr).countP (fun a => a.type == "High risk screening score")
      = if 2 ≤ curr.qsofaScore then 1 else 0 := by
  unfold highRiskAlerts
  split <;> simp [List.countP_cons]

lemma countP_rr (prev curr : ScoredReading) :
    (rrCrossedAlerts prev curr).countP (fun a => a.type == "Respiratory rate threshold crossed")
      = if 22 ≤ curr.respiratoryRate ∧ prev.respiratoryRate < 22 then 1 else 0 := by
  unfold rrCrossedAlerts
  split <;> simp [List.countP_cons]

lemma countP_bp (prev curr : ScoredReading) :
    (bpCrossedAlerts prev curr).countP (fun a => a.type == "Blood pressure threshold crossed")
      = if curr.systolicBP ≤ 100 ∧ 100 < prev.systolicBP then 1 else 0 := by
  unfold bpCrossedAlerts
  split <;> simp [List.countP_cons]

lemma mental_ok_countP {prev curr : ScoredReading} {p c : String} {m : List Alert}
    (hp : prev.mentalStatus = some p) (hc : curr.mentalStatus = some c)
    (h : mentalStatusAlerts prev curr = Except.ok m) :
    m.countP (fun a => a.type == "Change in mental status")
      = if toLowerCase p = "alert" ∧ toLowerCase c ≠ "alert" then 1 else 0 := by
  simp only [mentalStatusAlerts, hp, hc] at h
  by_cases h1 : toLowerCase p = "alert"
  · rw [if_pos h1] at h
    by_cases h2 : toLowerCase c ≠ "alert"
    · rw [if_pos h2] at h
      injection h with h3; subst h3
      simp [List.countP_cons, h1, h2]
    · rw [if_neg h2] at h
      injection h with h3; subst h3
      simp [h1, h2]
  · rw [if_neg h1] at h
    injection h with h3; subst h3
    simp [h1]

lemma riskEscalatingAlerts_length_le (prev curr : ScoredReading) :
    (riskEscalatingAlerts prev curr).length ≤ 1 := by
  unfold riskEscalatingAlerts
  split <;> simp

lemma highRiskAlerts_length_le (curr : ScoredReading) :
    (highRiskAlerts curr).length ≤ 1 := by
  unfold highRiskAlerts
  split <;> simp

lemma rrCrossedAlerts_length_le (prev curr : ScoredReading) :
    (rrCrossedAlerts prev curr).length ≤ 1 := by
  unfold rrCrossedAlerts
  split <;> simp

lemma bpCrossedAlerts_length_le (prev curr : ScoredReading) :
    (bpCrossedAlerts prev curr).length ≤ 1 := by
  unfold bpCrossedAlerts
  split <;> simp

lemma deriveAlerts_cons_cons (prev curr : ScoredReading) (rest : List ScoredReading)
    (l1 l2 : List Alert) (h1 : pairAlerts prev curr = Except.ok l1)
    (h2 : deriveAlerts (curr :: rest) = Except.ok l2) :
    deriveAlerts (prev :: curr :: rest) = Except.ok (l1 ++ l2) := by
  simp only [deriveAlerts] at h2 ⊢
  simp only [derivePairs, h1, h2, ok_bind]
  rfl

lemma mentalStatusAlerts_isOk {prev curr : ScoredReading}
    (hp : prev.mentalStatus.isSome = true) (hc : curr.mentalStatus.isSome = true) :
    ∃ m, mentalStatusAlerts prev curr = Except.ok m := by
  rcases hps : prev.mentalStatus with _ | p
  · rw [hps] at hp; simp at hp
  · simp only [mentalStatusAlerts, hps]
    split
    · rcases hcs : curr.mentalStatus with _ | c
      · rw [hcs] at hc; simp at hc
      · simp only [hcs]
        split
        · exact ⟨_, rfl⟩
        · exact ⟨_, rfl⟩
    · exact ⟨_, rfl⟩

lemma pairAlerts_isOk {prev curr : ScoredReading}
    (hp : prev.mentalStatus.isSome = true) (hc : curr.mentalStatus.isSome = true) :
    ∃ l, pairAlerts prev curr = Except.ok l := by
  obtain ⟨m, hm⟩ := mentalStatusAlerts_isOk hp hc
  exact ⟨_, pairAlerts_ok_intro hm⟩

lemma derivePairs_isOk (prev : ScoredReading) (rs : List ScoredReading)
    (hp : prev.mentalStatus.isSome = true) (hrs : ∀ r ∈ rs, r.mentalStatus.isSome = true) :
    ∃ l, derivePairs prev rs = Except.ok l := by
  induction rs generalizing prev with
  | nil => exact ⟨[], rfl⟩
  | cons curr rest ih =>
    have hc : curr.mentalStatus.isSome = true := hrs curr (by simp)
    obtain ⟨a, ha⟩ := pairAlerts_isOk hp hc
    obtain ⟨b, hb⟩ := ih curr hc (fun r hr => hrs r (by simp [hr]))
    refine ⟨a ++ b, ?_⟩
    simp only [derivePairs, ha, hb, ok_bind]
    rfl

lemma deriveAlerts_isOk (rs : List ScoredReading)
    (hrs : ∀ r ∈ rs, r.mentalStatus.isSome = true) :
    ∃ l, deriveAlerts rs = Except.ok l := by
  cases rs with
  | nil => exact ⟨[], rfl⟩
  | cons r rest =>
    exact derivePairs_isOk r rest (hrs r (by simp)) (fun x hx => hrs x (by simp [hx]))

/-! Claims. -/

/-- Claim C1: for every observation (any numeric respiratory rate and systolic
BP, any mental-status value), `calculateQSOFA` returns a result whose score
equals the length of the reasons list and lies in {0,1,2,3}. -/
theorem qsofa_score_matches_reasons_and_bounded (o : Observation) :
    (calculateQSOFA o).score = (calculateQSOFA o).reasons.length
    ∧ (calculateQSOFA o).score ≤ 3 := by
  simp only [calculateQSOFA]
  split_ifs <;> simp

/-- Witness for Claim C1 at a concrete observation. -/
theorem qsofa_score_matches_reasons_and_bounded_witness :
    (calculateQSOFA ⟨18, 115, some "Alert"⟩).score
        = (calculateQSOFA ⟨18, 115, some "Alert"⟩).reasons.length
    ∧ (calculateQSOFA ⟨18, 115, some "Alert"⟩).score ≤ 3 :=
  qsofa_score_matches_reasons_and_bounded ⟨18, 115, some "Alert"⟩

/-- Counterexample to Claim C2: the trend loop has five push sites, not four,
and for a pair deteriorating on every criterion at once it appends five
alerts, so "at most 4 alerts per pair" fails. -/
theorem trend_pair_can_append_five_alerts :
    pairAlerts fiveAlertPrev fiveAlertCurr = Except.ok fiveAlertList
    ∧ fiveAlertList.length = 5 ∧ ¬ fiveAlertList.length ≤ 4 :=
  ⟨by decide, by decide, by decide⟩

/-- Claim C2 (amended): for every adjacent pair of readings the trend
derivation appends at most 5 alerts for that pair (the loop evaluates five
rules, each appending zero or one alert). -/
theorem trend_pair_appends_at_most_five_alerts (prev curr : ScoredReading) (l : List Alert)
    (h : pairAlerts prev curr = Except.ok l) : l.length ≤ 5 := by
  obtain ⟨m, hm, rfl⟩ := pairAlerts_ok_elim h
  have h5 : m.length ≤ 1 := by
    rcases mental_ok_cases hm with h2 | h2 <;> subst h2 <;> simp
  have h1 := riskEscalatingAlerts_length_le prev curr
  have h2 := highRiskAlerts_length_le curr
  have h3 := rrCrossedAlerts_length_le prev curr
  have h4 := bpCrossedAlerts_length_le prev curr
  simp only [List.length_append]
  omega

/-- Witness for the amended Claim C2 at the concrete five-alert pair. -/
theorem trend_pair_appends_at_most_five_alerts_witness : fiveAlertList.length ≤ 5 :=
  trend_pair_appends_at_most_five_alerts fiveAlertPrev fiveAlertCurr fiveAlertList (by decide)

/-- Claim C3: the "High risk screening score" alert is a level check, not an
edge trigger: on every adjacent pair it appears exactly once when the current
stored score is at least 2 and never otherwise, regardless of the previous
score; stored scores [2,2,2] yield exactly two such alerts, one per pair. -/
theorem high_risk_alert_is_level_check :
    (∀ prev curr l, pairAlerts prev curr = Except.ok l →
       l.countP (fun a => a.type == "High risk screening score")
         = if 2 ≤ curr.qsofaScore then 1 else 0)
    ∧ (deriveAlerts tripleHighReadings).map
        (fun l => l.countP (fun a => a.type == "High risk screening score")) = Except.ok 2 := by
  constructor
  · intro prev curr l h
    obtain ⟨m, hm, rfl⟩ := pairAlerts_ok_elim h
    rw [List.countP_append, List.countP_append, List.countP_append, List.countP_append,
        countP_riskEscalating_ne prev curr "High risk screening score" (by decide),
        countP_high curr,
        countP_rr_ne prev curr "High risk screening score" (by decide),
        countP_bp_ne prev curr "High risk screening score" (by decide),
        countP_mental_ne hm "High risk screening score" (by decide)]
    simp
  · decide

/-- Witness for Claim C3 at a concrete pair with current score 2. -/
theorem high_risk_alert_is_level_check_witness :
    List.countP (fun a => a.type == "High risk screening score") [highRiskAlertAt 1]
      = if 2 ≤ (mkReading 1 25 90 (some "Alert") 2).qsofaScore then 1 else 0 :=
  high_risk_alert_is_level_check.1 (mkReading 0 25 90 (some "Alert") 2)
    (mkReading 1 25 90 (some "Alert") 2) [highRiskAlertAt 1] (by decide)

/-- Claim C4: the alert output is the concatenation over adjacent pairs, in
chronological pair order, of the alerts of each pair, within a pair in the
fixed rule-declaration order (risk escalating, high risk, respiratory rate,
blood pressure, mental status); empty and single-element inputs yield no
alerts, and stored scores [0,1,2] yield two "Risk escalating" alerts followed
by one "High risk screening score" alert in that relative order. -/
theorem alerts_are_ordered_pair_concatenation :
    deriveAlerts [] = Except.ok []
    ∧ (∀ r, deriveAlerts [r] = Except.ok [])
    ∧ (∀ prev curr rest l1 l2, pairAlerts prev curr = Except.ok l1 →
         deriveAlerts (curr :: rest) = Except.ok l2 →
         deriveAlerts (prev :: curr :: rest) = Except.ok (l1 ++ l2))
    ∧ (∀ prev curr m, mentalStatusAlerts prev curr = Except.ok m →
         pairAlerts prev curr = Except.ok (riskEscalatingAlerts prev curr ++ highRiskAlerts curr
           ++ rrCrossedAlerts prev curr ++ bpCrossedAlerts prev curr ++ m))
    ∧ deriveAlerts escalatingReadings
        = Except.ok (escalatingPair1Alerts ++ escalatingPair2Alerts) := by
  refine ⟨rfl, fun r => rfl, ?_, ?_, by decide⟩
  · intro prev curr rest l1 l2 h1 h2
    exact deriveAlerts_cons_cons prev curr rest l1 l2 h1 h2
  · intro prev curr m hm
    exact pairAlerts_ok_intro hm

/-- Witness for Claim C4: the concatenation conjunct applied to the concrete
[0,1,2] reading list and its two pairwise alert lists. -/
theorem alerts_are_ordered_pair_concatenation_witness :
    deriveAlerts (mkReading 0 18 115 (some "Alert") 0 :: mkReading 1 18 115 (some "Alert") 1 ::
        [mkReading 2 18 115 (some "Alert") 2])
      = Except.ok (escalatingPair1Alerts ++ escalatingPair2Alerts) :=
  alerts_are_ordered_pair_concatenation.2.2.1 (mkReading 0 18 115 (some "Alert") 0)
    (mkReading 1 18 115 (some "Alert") 1) [mkReading 2 18 115 (some "Alert") 2]
    escalatingPair1Alerts escalatingPair2Alerts (by decide) (by decide)

/-- Claim C5: the respiratory-rate and blood-pressure alerts are strict edge
triggers: per adjacent pair, the respiratory-rate alert appears exactly once
when the current rate is at least 22 and the previous was below 22 (never
otherwise), the blood-pressure alert exactly once when the current systolic BP
is at most 100 and the previous was above 100; a respiratory-rate sequence
[25,25,25] yields zero respiratory-rate alerts. -/
theorem rr_and_bp_alerts_are_edge_triggers :
    (∀ prev curr l, pairAlerts prev curr = Except.ok l →
       (l.countP (fun a => a.type == "Respiratory rate threshold crossed")
          = if 22 ≤ curr.respiratoryRate ∧ prev.respiratoryRate < 22 then 1 else 0)
       ∧ (l.countP (fun a => a.type == "Blood pressure threshold crossed")
          = if curr.systolicBP ≤ 100 ∧ 100 < prev.systolicBP then 1 else 0))
    ∧ (deriveAlerts elevatedRRReadings).map
        (fun l => l.countP (fun a => a.type == "Respiratory rate threshold crossed"))
      = Except.ok 0 := by
  constructor
  · intro prev curr l h
    obtain ⟨m, hm, rfl⟩ := pairAlerts_ok_elim h
    constructor
    · rw [List.countP_append, List.countP_append, List.countP_append, List.countP_append,
          countP_riskEscalating_ne prev curr "Respiratory rate threshold crossed" (by decide),
          countP_high_ne curr "Respiratory rate threshold crossed" (by decide),
          countP_rr prev curr,
          countP_bp_ne prev curr "Respiratory rate threshold crossed" (by decide),
          countP_mental_ne hm "Respiratory rate threshold crossed" (by decide)]
      simp
    · rw [List.countP_append, List.countP_append, List.countP_append, List.countP_append,
          countP_riskEscalating_ne prev curr "Blood pressure threshold crossed" (by decide),
          countP_high_ne curr "Blood pressure threshold crossed" (by decide),
          countP_rr_ne prev curr "Blood pressure threshold crossed" (by decide),
          countP_bp prev curr,
          countP_mental_ne hm "Blood pressure threshold crossed" (by decide)]
      simp
  · decide

/-- Witness for Claim C5 at a concrete pair whose rate stays at 25. -/
theorem rr_and_bp_alerts_are_edge_triggers_witness :
    (List.countP (fun a => a.type == "Respiratory rate threshold crossed") ([] : List Alert)
       = if 22 ≤ (mkReading 1 25 115 (some "Alert") 1).respiratoryRate
            ∧ (mkReading 0 25 115 (some "Alert") 1).respiratoryRate < 22 then 1 else 0)
    ∧ (List.countP (fun a => a.type == "Blood pressure threshold crossed") ([] : List Alert)
       = if (mkReading 1 25 115 (some "Alert") 1).systolicBP ≤ 100
            ∧ 100 < (mkReading 0 25 115 (some "Alert") 1).systolicBP then 1 else 0) :=
  rr_and_bp_alerts_are_edge_triggers.1 (mkReading 0 25 115 (some "Alert") 1)
    (mkReading 1 25 115 (some "Alert") 1) [] (by decide)

/-- Claim C6: the "Change in mental status" alert fires for a pair exactly
when the previous mental status is case-insensitively "alert" and the current
one is not; it never fires on the improvement transition, so the sequence
["Alert","Confused","Alert"] produces exactly one such alert, at the
Alert-to-Confused step (timestamp 1). -/
theorem mental_status_alert_edge_trigger :
    (∀ prev curr p c l, prev.mentalStatus = some p → curr.mentalStatus = some c →
       pairAlerts prev curr = Except.ok l →
       l.countP (fun a => a.type == "Change in mental status")
         = if toLowerCase p = "alert" ∧ toLowerCase c ≠ "alert" then 1 else 0)
    ∧ deriveAlerts mentalSeqReadings = Except.ok mentalSeqPairList
    ∧ mentalSeqPairList.countP (fun a => a.type == "Change in mental status") = 1
    ∧ (mentalSeqPairList.filter (fun a => a.type == "Change in mental status"))
        = [mentalChangeAlertAt 1] := by
  refine ⟨?_, by decide, by decide, by decide⟩
  intro prev curr p c l hp hc h
  obtain ⟨m, hm, rfl⟩ := pairAlerts_ok_elim h
  rw [List.countP_append, List.countP_append, List.countP_append, List.countP_append,
      countP_riskEscalating_ne prev curr "Change in mental status" (by decide),
      countP_high_ne curr "Change in mental status" (by decide),
      countP_rr_ne prev curr "Change in mental status" (by decide),
      countP_bp_ne prev curr "Change in mental status" (by decide),
      mental_ok_countP hp hc hm]
  simp

/-- Witness for Claim C6 at the concrete Alert-to-Confused pair. -/
theorem mental_status_alert_edge_trigger_witness :
    mentalSeqPairList.countP (fun a => a.type == "Change in mental status")
      = if toLowerCase "Alert" = "alert" ∧ toLowerCase "Confused" ≠ "alert" then 1 else 0 :=
  mental_status_alert_edge_trigger.1 (mkReading 0 18 115 (some "Alert") 0)
    (mkReading 1 18 115 (some "Confused") 1) "Alert" "Confused" mentalSeqPairList
    (by decide) (by decide) (by decide)

/-- Claim C7: the mental-status criterion of `calculateQSOFA` adds exactly one
point exactly when the value is a non-empty string that lowercases to
something other than "alert"; an absent value contributes nothing, and inputs
differing only in the casing of "alert" give identical results with the
criterion (and its reason) not firing. -/
theorem mental_status_criterion (rr sbp : ℚ) (ms : Option String) :
    ((calculateQSOFA ⟨rr, sbp, ms⟩).score
       = (calculateQSOFA ⟨rr, sbp, none⟩).score
         + (match ms with
            | none => 0
            | some s => if s ≠ "" ∧ toLowerCase s ≠ "alert" then 1 else 0))
    ∧ calculateQSOFA ⟨rr, sbp, some "ALERT"⟩ = calculateQSOFA ⟨rr, sbp, some "alert"⟩
    ∧ "Altered mental status (not fully alert)" ∉ (calculateQSOFA ⟨rr, sbp, some "ALERT"⟩).reasons := by
  refine ⟨?_, ?_, ?_⟩
  · rw [score_decomp, score_decomp]
    rcases ms with _ | s
    · simp [mentalAltered]
    · by_cases hP : s ≠ "" ∧ toLowerCase s ≠ "alert"
      · have hA : mentalAltered (some s) = true := (mentalAltered_some_iff s).2 hP
        simp [hA, hP, mentalAltered]
      · have hA : mentalAltered (some s) = false := by
          rcases Bool.eq_false_or_eq_true (mentalAltered (some s)) with h | h
          · exact absurd ((mentalAltered_some_iff s).1 h) hP
          · exact h
        simp [hA, hP, mentalAltered]
  · have h0 : mentalAltered (some "ALERT") = mentalAltered (some "alert") := by decide
    simp [calculateQSOFA, h0]
  · have h0 : mentalAltered (some "ALERT") = false := by decide
    simp only [calculateQSOFA, h0]
    split_ifs <;> simp_all

/-- Witness for Claim C7 at concrete vitals and a "Confused" status. -/
theorem mental_status_criterion_witness :
    ((calculateQSOFA ⟨30, 80, some "Confused"⟩).score
       = (calculateQSOFA ⟨30, 80, none⟩).score
         + (match (some "Confused" : Option String) with
            | none => 0
            | some s => if s ≠ "" ∧ toLowerCase s ≠ "alert" then 1 else 0))
    ∧ calculateQSOFA ⟨30, 80, some "ALERT"⟩ = calculateQSOFA ⟨30, 80, some "alert"⟩
    ∧ "Altered mental status (not fully alert)" ∉ (calculateQSOFA ⟨30, 80, some "ALERT"⟩).reasons :=
  mental_status_criterion 30 80 (some "Confused")

/-- Claim C8: the scoring thresholds are inclusive on the boundary:
rr=22, sbp=100, "Alert" scores 2 with exactly the two threshold reasons in
order, while rr=21, sbp=101, "Alert" scores 0 with the "Low" label. -/
theorem boundary_thresholds_inclusive :
    calculateQSOFA ⟨22, 100, some "Alert"⟩
      = { score := 2, riskLabel := "High screening score",
          reasons := ["Respiratory rate at or above 22 breaths/min",
                      "Systolic blood pressure at or below 100 mmHg"] }
    ∧ (calculateQSOFA ⟨21, 101, some "Alert"⟩).score = 0
    ∧ (calculateQSOFA ⟨21, 101, some "Alert"⟩).riskLabel = "Low screening score" :=
  ⟨by decide, by decide, by decide⟩

/-- Claim C9: the risk label of `calculateQSOFA` is determined by the score
alone: 0 gives "Low screening score", 1 gives "Intermediate screening score",
and 2 or more gives "High screening score", for every observation. -/
theorem risk_label_determined_by_score (o : Observation) :
    ((calculateQSOFA o).score = 0 → (calculateQSOFA o).riskLabel = "Low screening score")
    ∧ ((calculateQSOFA o).score = 1 → (calculateQSOFA o).riskLabel = "Intermediate screening score")
    ∧ (2 ≤ (calculateQSOFA o).score → (calculateQSOFA o).riskLabel = "High screening score") := by
  refine ⟨?_, ?_, ?_⟩ <;> intro h <;>
    simp only [calculateQSOFA] at h ⊢ <;> split_ifs <;> simp_all

/-- Witness for Claim C9 at a concrete observation with score 0. -/
theorem risk_label_determined_by_score_witness :
    (calculateQSOFA ⟨21, 101, some "Alert"⟩).riskLabel = "Low screening score" :=
  (risk_label_determined_by_score ⟨21, 101, some "Alert"⟩).1 (by decide)

/-- Claim C10: the trend loop reads `mentalStatus.toLowerCase()` without the
truthiness guard the scorer has: it succeeds on every reading list whose
readings all carry a mental-status string, but on a list whose first reading
has no mental-status value the mental-status rule throws (the summary request
produces no alert list), while `calculateQSOFA` on that same observation
still returns a normal result. -/
theorem trend_mental_rule_unguarded :
    (∀ rs : List ScoredReading, (∀ r ∈ rs, r.mentalStatus.isSome = true) →
       ∃ l, deriveAlerts rs = Except.ok l)
    ∧ deriveAlerts missingMentalReadings
        = Except.error "TypeError: cannot read toLowerCase of a missing mentalStatus"
    ∧ calculateQSOFA missingMentalObs
        = { score := 1, riskLabel := "Intermediate screening score",
            reasons := ["Systolic blood pressure at or below 100 mmHg"] } :=
  ⟨deriveAlerts_isOk, by decide, by decide⟩

/-- Witness for Claim C10 at a concrete list whose statuses are all present. -/
theorem trend_mental_rule_unguarded_witness :
    ∃ l, deriveAlerts presentMentalReadings = Except.ok l :=
  trend_mental_rule_unguarded.1 presentMentalReadings (by decide)

end Sepsis
